import Mathlib

/-!
Shallow embedding of the genre-adaptive guitar effects engine
(src/src/effects/*.py) and proofs about its effect chain.

Audio samples are modelled as real numbers (the Python code computes in
floating point; we verify the real-number dataflow). Each stateful DSP unit
is a structure holding exactly the fields the Python class holds, and each
per-sample loop becomes explicit state passing via runSamples.
-/

set_option maxHeartbeats 1000000

noncomputable section

namespace GuitarFx

/-- An audio block: ordered sequence of mono samples. -/
abbrev Block := List ℝ

/-- Generic per-sample loop: runs a step function over the block from left to
right, threading the unit state; returns the output block and final state.
This is the shape of every `for i in range(len(audio))` loop in the source. -/
def runSamples {σ : Type} (f : σ → ℝ → ℝ × σ) : σ → Block → Block × σ
  | s, [] => ([], s)
  | s, x :: xs =>
    let r := f s x
    let rest := runSamples f r.2 xs
    (r.1 :: rest.1, rest.2)

/-- Python modulo of an integer by a natural buffer length (result in
[0, n) for n > 0, as in Python). -/
def pymod (a : ℤ) (n : ℕ) : ℕ := (a % (n : ℤ)).toNat

/-- np.clip for reals: min(max(x, lo), hi). -/
def clipR (x lo hi : ℝ) : ℝ := min (max x lo) hi

/-- np.clip for integers: min(max(x, lo), hi). -/
def clipZ (x lo hi : ℤ) : ℤ := min (max x lo) hi

/-! ## Distortion (src/src/effects/distortion.py) -/

/-- Distortion state: the three parameters; the unit is stateless and the
source class has no reset method. -/
structure Distortion where
  gain : ℝ
  mix : ℝ
  type : String

/-- Constructor defaults of Distortion.__init__. -/
def Distortion.init : Distortion := { gain := 5.0, mix := 1.0, type := "tanh" }

/-- The nonlinearity applied to one sample, selected by self.type
(distortion.py lines 35-59). Unknown type strings fall through to the
identity on the gained sample. -/
def Distortion.wet (d : Distortion) (x : ℝ) : ℝ :=
  let gained := x * d.gain
  if d.type = "tanh" then Real.tanh gained
  else if d.type = "hard" then clipR (Real.tanh (gained * 0.6) * 2.2) (-0.95) 0.95
  else if d.type = "soft" then
    Real.tanh (gained * 1.2) * 0.9 + Real.tanh (gained * 0.3) ^ 2 * 0.15
  else if d.type = "asymmetric" then
    if 0 ≤ gained then Real.tanh (gained * 1.8) * 1.1 else Real.tanh (gained * 1.3) * 0.95
  else gained

/-- Distortion.process: wet/dry mix followed by the fixed 0.9 output
attenuation (distortion.py lines 62-67). -/
def Distortion.process (d : Distortion) (audio : Block) : Block :=
  audio.map fun x => (d.mix * Distortion.wet d x + (1.0 - d.mix) * x) * 0.9

/-- Distortion.set_params: each keyword argument, when given, overwrites the
field; no clamping (distortion.py lines 69-76). -/
def Distortion.set_params (d : Distortion) (gain mix : Option ℝ) (type : Option String) :
    Distortion :=
  let d1 := match gain with | some g => { d with gain := g } | none => d
  let d2 := match mix with | some m => { d1 with mix := m } | none => d1
  match type with | some t => { d2 with type := t } | none => d2

/-! ## Chorus (src/src/effects/chorus.py) -/

structure Chorus where
  sr : ℕ
  rate : ℝ
  depth : ℝ
  mix : ℝ
  max_delay_samples : ℕ
  buffer : List ℝ
  write_pos : ℕ
  lfo_phase : ℝ

/-- Chorus.__init__ with the source defaults; buffer sized int(0.05 * sr). -/
def Chorus.init (sr : ℕ) : Chorus :=
  let m := (⌊(0.05 : ℝ) * sr⌋).toNat
  { sr := sr, rate := 1.5, depth := 0.003, mix := 0.5,
    max_delay_samples := m, buffer := List.replicate m 0,
    write_pos := 0, lfo_phase := 0 }

/-- One iteration of the Chorus.process per-sample loop (chorus.py lines
45-67): write input, advance LFO, compute clamped modulated delay, read,
mix, advance cursor. int() truncation agrees with the floor here because
the result is clipped below at 0. -/
def Chorus.step (c : Chorus) (x : ℝ) : ℝ × Chorus :=
  let buf := c.buffer.set c.write_pos x
  let lfo := Real.sin (2 * Real.pi * c.lfo_phase)
  let phase0 := c.lfo_phase + c.rate / c.sr
  let phase := if 1 ≤ phase0 then phase0 - 1 else phase0
  let ds := (clipZ ⌊c.depth * c.sr * (1 + lfo) / 2⌋ 0 ((c.max_delay_samples : ℤ) - 1)).toNat
  let read_pos := pymod ((c.write_pos : ℤ) - (ds : ℤ)) c.max_delay_samples
  let delayed := buf.getD read_pos 0
  let out := c.mix * delayed + (1 - c.mix) * x
  (out, { c with buffer := buf, lfo_phase := phase,
                 write_pos := (c.write_pos + 1) % c.max_delay_samples })

def Chorus.process (c : Chorus) (audio : Block) : Block × Chorus :=
  runSamples Chorus.step c audio

/-- Chorus.set_params stores the given values verbatim (chorus.py 71-78). -/
def Chorus.set_params (c : Chorus) (rate depth mix : Option ℝ) : Chorus :=
  let c1 := match rate with | some r => { c with rate := r } | none => c
  let c2 := match depth with | some d => { c1 with depth := d } | none => c1
  match mix with | some m => { c2 with mix := m } | none => c2

/-- Chorus.reset: zero the buffer in place, cursor and phase to 0. -/
def Chorus.reset (c : Chorus) : Chorus :=
  { c with buffer := c.buffer.map (fun _ => 0), write_pos := 0, lfo_phase := 0 }

/-! ## Compressor (src/src/effects/compressor.py) -/

structure Compressor where
  sr : ℕ
  threshold : ℝ
  ratio : ℝ
  makeup_gain : ℝ
  attack_coeff : ℝ
  release_coeff : ℝ
  envelope : ℝ

def Compressor.init (sr : ℕ) : Compressor :=
  { sr := sr, threshold := -20.0, ratio := 4.0, makeup_gain := 1.0,
    attack_coeff := Real.exp (-1 / (0.005 * sr)),
    release_coeff := Real.exp (-1 / (0.1 * sr)),
    envelope := 0 }

/-- One iteration of the Compressor.process loop (compressor.py 47-76). -/
def Compressor.step (c : Compressor) (x : ℝ) : ℝ × Compressor :=
  let lvl := |x|
  let env :=
    if c.envelope < lvl then c.attack_coeff * c.envelope + (1 - c.attack_coeff) * lvl
    else c.release_coeff * c.envelope + (1 - c.release_coeff) * lvl
  let env_db := 20 * Real.logb 10 (env + 1e-10)
  let gr := if c.threshold < env_db then (c.threshold + (env_db - c.threshold) / c.ratio) - env_db
            else 0
  let g := (10 : ℝ) ^ (gr / 20)
  (x * g * c.makeup_gain, { c with envelope := env })

def Compressor.process (c : Compressor) (audio : Block) : Block × Compressor :=
  runSamples Compressor.step c audio

/-- Compressor.set_params stores the given values verbatim (80-87). -/
def Compressor.set_params (c : Compressor) (threshold ratio makeup_gain : Option ℝ) :
    Compressor :=
  let c1 := match threshold with | some t => { c with threshold := t } | none => c
  let c2 := match ratio with | some r => { c1 with ratio := r } | none => c1
  match makeup_gain with | some m => { c2 with makeup_gain := m } | none => c2

def Compressor.reset (c : Compressor) : Compressor := { c with envelope := 0 }

/-! ## EQ (src/src/effects/eq.py) -/

structure EqBand where
  freq : ℝ
  gain : ℝ
  Q : ℝ

def brightBands : List EqBand := [⟨2000, 7.0, 1.0⟩, ⟨5000, 6.0, 1.0⟩]

def warmBands : List EqBand := [⟨200, 4.0, 1.0⟩, ⟨800, 5.0, 1.0⟩]

def metalBands : List EqBand :=
  [⟨100, 1.0, 1.0⟩, ⟨400, 3.0, 0.9⟩, ⟨800, 8.0, 0.8⟩,
   ⟨1500, 5.0, 0.9⟩, ⟨3000, 3.0, 1.0⟩, ⟨6000, 1.0, 1.2⟩]

def metalPreBands : List EqBand :=
  [⟨135, -15.0, 0.7⟩, ⟨1000, 13.0, 1.0⟩, ⟨2500, 6.0, 1.2⟩]

def metalPostBands : List EqBand :=
  [⟨7000, -10.0, 0.7⟩, ⟨90, 18.0, 1.2⟩, ⟨150, 35.0, 0.8⟩, ⟨500, -14.0, 1.0⟩,
   ⟨3000, 15.0, 1.1⟩, ⟨5000, 24.0, 0.9⟩, ⟨1500, 13.5, 0.8⟩]

structure EQ where
  sr : ℕ
  bands : List EqBand
  states : List (ℝ × ℝ)

/-- EQ.set_preset: replace the band table per the named preset (unknown
names give the flat, empty table) and re-zero one two-tap state per band. -/
def EQ.set_preset (e : EQ) (preset : String) : EQ :=
  let bands :=
    if preset = "bright" then brightBands
    else if preset = "warm" then warmBands
    else if preset = "metal" then metalBands
    else if preset = "metal_pre" then metalPreBands
    else if preset = "metal_post" then metalPostBands
    else []
  { e with bands := bands, states := List.replicate bands.length (0, 0) }

def EQ.init (sr : ℕ) : EQ := EQ.set_preset { sr := sr, bands := [], states := [] } "flat"

structure Biquad where
  b0 : ℝ
  b1 : ℝ
  b2 : ℝ
  a1 : ℝ
  a2 : ℝ

/-- EQ._design_peaking_filter: cookbook peaking biquad, coefficients
normalized by a0 (eq.py 84-111). -/
def designPeakingFilter (sr : ℕ) (band : EqBand) : Biquad :=
  let A := (10 : ℝ) ^ (band.gain / 40)
  let w0 := 2 * Real.pi * band.freq / sr
  let alpha := Real.sin w0 / (2 * band.Q)
  let a0 := 1 + alpha / A
  { b0 := (1 + alpha * A) / a0, b1 := (-2 * Real.cos w0) / a0, b2 := (1 - alpha * A) / a0,
    a1 := (-2 * Real.cos w0) / a0, a2 := (1 - alpha / A) / a0 }

/-- One sample of scipy.signal.lfilter in direct form II transposed with
a0 = 1, two delay taps. -/
def biquadStep (co : Biquad) (z : ℝ × ℝ) (x : ℝ) : ℝ × (ℝ × ℝ) :=
  let y := co.b0 * x + z.1
  (y, (co.b1 * x + z.2 - co.a1 * y, co.b2 * x - co.a2 * y))

/-- The band loop of EQ.process: each band filters the previous band output,
reading and writing its own state slot (eq.py 126-128). -/
def eqRun (sr : ℕ) : List EqBand → List (ℝ × ℝ) → Block → Block × List (ℝ × ℝ)
  | [], zs, audio => (audio, zs)
  | band :: bands, zs, audio =>
    let r := runSamples (biquadStep (designPeakingFilter sr band)) (zs.headD (0, 0)) audio
    let rest := eqRun sr bands zs.tail r.1
    (rest.1, r.2 :: rest.2)

def EQ.process (e : EQ) (audio : Block) : Block × EQ :=
  let r := eqRun e.sr e.bands e.states audio
  (r.1, { e with states := r.2 })

def EQ.reset (e : EQ) : EQ := { e with states := List.replicate e.bands.length (0, 0) }

/-! ## Delay (src/src/effects/delay.py) -/

structure Delay where
  sr : ℕ
  delay_time : ℝ
  feedback : ℝ
  mix : ℝ
  max_delay_samples : ℕ
  buffer : List ℝ
  write_pos : ℕ
  delay_samples : ℕ

/-- Delay.update_delay_samples: int(delay_time * sr) clipped to
[1, max_delay_samples - 1]; int() truncation agrees with the floor after
the lower clip at 1. -/
def Delay.update_delay_samples (d : Delay) : Delay :=
  { d with delay_samples := (clipZ ⌊d.delay_time * d.sr⌋ 1 ((d.max_delay_samples : ℤ) - 1)).toNat }

/-- Delay.__init__ with the source defaults; buffer sized int(2.0 * sr). -/
def Delay.init (sr : ℕ) : Delay :=
  Delay.update_delay_samples
    { sr := sr, delay_time := 0.3, feedback := 0.4, mix := 0.3,
      max_delay_samples := 2 * sr, buffer := List.replicate (2 * sr) 0,
      write_pos := 0, delay_samples := 0 }

/-- One iteration of the Delay.process loop (delay.py 49-61). -/
def Delay.step (d : Delay) (x : ℝ) : ℝ × Delay :=
  let read_pos := pymod ((d.write_pos : ℤ) - (d.delay_samples : ℤ)) d.max_delay_samples
  let delayed := d.buffer.getD read_pos 0
  let buf := d.buffer.set d.write_pos (x + delayed * d.feedback)
  let out := (1 - d.mix) * x + d.mix * delayed
  (out, { d with buffer := buf, write_pos := (d.write_pos + 1) % d.max_delay_samples })

def Delay.process (d : Delay) (audio : Block) : Block × Delay :=
  runSamples Delay.step d audio

/-- Delay.set_params (delay.py 65-73): delay_time stored then the derived
delay length re-clipped; feedback clipped to [0, 0.95]; mix stored raw. -/
def Delay.set_params (d : Delay) (delay_time feedback mix : Option ℝ) : Delay :=
  let d1 := match delay_time with
    | some t => Delay.update_delay_samples { d with delay_time := t }
    | none => d
  let d2 := match feedback with
    | some f => { d1 with feedback := clipR f 0 0.95 }
    | none => d1
  match mix with | some m => { d2 with mix := m } | none => d2

def Delay.reset (d : Delay) : Delay :=
  { d with buffer := d.buffer.map (fun _ => 0), write_pos := 0 }

/-! ## Reverb (src/src/effects/reverb.py) -/

def combDelayTimes : List ℕ := [1557, 1617, 1491, 1422, 1277, 1356, 1188, 1116]

def allpassDelayTimes : List ℕ := [225, 556, 441, 341]

/-- int(sr * t / 44100), the proportional rescaling of the reference delay
lengths; the operands are nonnegative so truncation is the floor. -/
def scaledDelay (sr t : ℕ) : ℕ := (⌊((sr * t : ℕ) : ℝ) / 44100⌋).toNat

structure Reverb where
  sr : ℕ
  room_size : ℝ
  damping : ℝ
  mix : ℝ
  comb_buffers : List (List ℝ)
  comb_positions : List ℕ
  comb_feedback : List ℝ
  allpass_buffers : List (List ℝ)
  allpass_positions : List ℕ

/-- Reverb.update_parameters: every comb feedback entry becomes
0.84 + room_size * 0.1 (reverb.py 42-47). -/
def Reverb.update_parameters (rv : Reverb) : Reverb :=
  { rv with comb_feedback := rv.comb_feedback.map (fun _ => 0.84 + rv.room_size * 0.1) }

def Reverb.init (sr : ℕ) : Reverb :=
  Reverb.update_parameters
    { sr := sr, room_size := 0.5, damping := 0.5, mix := 0.3,
      comb_buffers := (combDelayTimes.map (scaledDelay sr)).map (fun d => List.replicate d 0),
      comb_positions := List.replicate combDelayTimes.length 0,
      comb_feedback := List.replicate combDelayTimes.length 0,
      allpass_buffers := (allpassDelayTimes.map (scaledDelay sr)).map (fun d => List.replicate d 0),
      allpass_positions := List.replicate allpassDelayTimes.length 0 }

/-- The comb-bank inner loop for one input sample (reverb.py 65-79):
updates every comb buffer and cursor and accumulates the pre-write delayed
reads. Mismatched list lengths truncate as Python zip does. -/
def combPass (x damping : ℝ) : List (List ℝ) → List ℕ → List ℝ → List (List ℝ) × List ℕ × ℝ
  | buf :: bufs, pos :: poss, fb :: fbs =>
    let delayed := buf.getD pos 0
    let filtered := delayed * (1 - damping) + fb * delayed * damping
    let buf2 := buf.set pos (x + filtered * fb)
    let rest := combPass x damping bufs poss fbs
    (buf2 :: rest.1, ((pos + 1) % buf.length) :: rest.2.1, rest.2.2 + delayed)
  | _, _, _ => ([], [], 0)

/-- The serial allpass loop for one sample (reverb.py 87-91). -/
def allpassPass (v : ℝ) : List (List ℝ) → List ℕ → ℝ × List (List ℝ) × List ℕ
  | buf :: bufs, pos :: poss =>
    let delayed := buf.getD pos 0
    let buf2 := buf.set pos (v + delayed * 0.5)
    let rest := allpassPass (delayed - v * 0.5) bufs poss
    (rest.1, buf2 :: rest.2.1, ((pos + 1) % buf.length) :: rest.2.2)
  | _, _ => (v, [], [])

/-- One iteration of the Reverb.process outer loop (reverb.py 61-94). -/
def Reverb.step (rv : Reverb) (x : ℝ) : ℝ × Reverb :=
  let comb := combPass x rv.damping rv.comb_buffers rv.comb_positions rv.comb_feedback
  let comb_out := comb.2.2 / (rv.comb_buffers.length : ℝ)
  let ap := allpassPass comb_out rv.allpass_buffers rv.allpass_positions
  let out := (1 - rv.mix) * x + rv.mix * ap.1
  (out, { rv with comb_buffers := comb.1, comb_positions := comb.2.1,
                  allpass_buffers := ap.2.1, allpass_positions := ap.2.2 })

def Reverb.process (rv : Reverb) (audio : Block) : Block × Reverb :=
  runSamples Reverb.step rv audio

/-- Reverb.set_params (reverb.py 98-106): values stored verbatim, no
clamping; a room_size update recomputes the comb feedback. -/
def Reverb.set_params (rv : Reverb) (room_size damping mix : Option ℝ) : Reverb :=
  let r1 := match room_size with
    | some rs => Reverb.update_parameters { rv with room_size := rs }
    | none => rv
  let r2 := match damping with | some dp => { r1 with damping := dp } | none => r1
  match mix with | some m => { r2 with mix := m } | none => r2

def Reverb.reset (rv : Reverb) : Reverb :=
  { rv with comb_buffers := rv.comb_buffers.map (fun b => b.map (fun _ => 0)),
            allpass_buffers := rv.allpass_buffers.map (fun b => b.map (fun _ => 0)),
            comb_positions := List.replicate rv.comb_buffers.length 0,
            allpass_positions := List.replicate rv.allpass_buffers.length 0 }

/-! ## NoiseGate (src/src/effects/noise_gate.py) -/

structure NoiseGate where
  sr : ℕ
  threshold : ℝ
  attack_coeff : ℝ
  release_coeff : ℝ
  envelope : ℝ
  gate_gain : ℝ

def NoiseGate.init (sr : ℕ) : NoiseGate :=
  { sr := sr, threshold := -40.0,
    attack_coeff := Real.exp (-1 / (0.001 * sr)),
    release_coeff := Real.exp (-1 / (0.05 * sr)),
    envelope := 0, gate_gain := 0 }

/-- One iteration of the NoiseGate.process loop (noise_gate.py 43-78):
envelope follower, dB threshold test giving a binary target, smoothing of
the gate gain toward the target, output multiplied by the smoothed gain. -/
def NoiseGate.step (g : NoiseGate) (x : ℝ) : ℝ × NoiseGate :=
  let lvl := |x|
  let env :=
    if g.envelope < lvl then g.attack_coeff * g.envelope + (1 - g.attack_coeff) * lvl
    else g.release_coeff * g.envelope + (1 - g.release_coeff) * lvl
  let env_db := 20 * Real.logb 10 (env + 1e-10)
  let target : ℝ := if g.threshold < env_db then 1 else 0
  let gg :=
    if g.gate_gain < target then g.attack_coeff * g.gate_gain + (1 - g.attack_coeff) * target
    else g.release_coeff * g.gate_gain + (1 - g.release_coeff) * target
  (x * gg, { g with envelope := env, gate_gain := gg })

def NoiseGate.process (g : NoiseGate) (audio : Block) : Block × NoiseGate :=
  runSamples NoiseGate.step g audio

/-- NoiseGate.set_params (noise_gate.py 82-89): threshold stored raw; attack
and release are converted to smoothing coefficients using the stored sr. -/
def NoiseGate.set_params (g : NoiseGate) (threshold attack release : Option ℝ) : NoiseGate :=
  let g1 := match threshold with | some t => { g with threshold := t } | none => g
  let g2 := match attack with
    | some a => { g1 with attack_coeff := Real.exp (-1 / (a * g1.sr)) }
    | none => g1
  match release with
  | some r => { g2 with release_coeff := Real.exp (-1 / (r * g2.sr)) }
  | none => g2

def NoiseGate.reset (g : NoiseGate) : NoiseGate := { g with envelope := 0, gate_gain := 0 }

/-! ## EffectChain (src/src/effects/effect_chain.py) -/

/-- Identifier of an effect role in the fixed pool (the keys of
EffectChain.effects_pool). -/
inductive EffectId
  | distortion
  | chorus
  | compressor
  | eq
  | eq_pre
  | eq_post
  | delay
  | reverb
  | noise_gate
  deriving DecidableEq

/-- The fixed pool of effect instances owned by the chain, one per role
(effect_chain.py 91-101). -/
structure Pool where
  distortion : Distortion
  chorus : Chorus
  compressor : Compressor
  eq : EQ
  eq_pre : EQ
  eq_post : EQ
  delay : Delay
  reverb : Reverb
  noise_gate : NoiseGate

/-- The pool built by EffectChain.__init__: every unit at its constructor
defaults for the given sample rate. -/
def initPool (sr : ℕ) : Pool :=
  { distortion := Distortion.init, chorus := Chorus.init sr, compressor := Compressor.init sr,
    eq := EQ.init sr, eq_pre := EQ.init sr, eq_post := EQ.init sr,
    delay := Delay.init sr, reverb := Reverb.init sr, noise_gate := NoiseGate.init sr }

/-- Dispatch one `effect.process(output)` call on the named pool entry,
returning its output block and the pool with that entry's state advanced. -/
def runEffect (p : Pool) (e : EffectId) (audio : Block) : Block × Pool :=
  match e with
  | .distortion => (p.distortion.process audio, p)
  | .chorus => let r := p.chorus.process audio; (r.1, { p with chorus := r.2 })
  | .compressor => let r := p.compressor.process audio; (r.1, { p with compressor := r.2 })
  | .eq => let r := p.eq.process audio; (r.1, { p with eq := r.2 })
  | .eq_pre => let r := p.eq_pre.process audio; (r.1, { p with eq_pre := r.2 })
  | .eq_post => let r := p.eq_post.process audio; (r.1, { p with eq_post := r.2 })
  | .delay => let r := p.delay.process audio; (r.1, { p with delay := r.2 })
  | .reverb => let r := p.reverb.process audio; (r.1, { p with reverb := r.2 })
  | .noise_gate => let r := p.noise_gate.process audio; (r.1, { p with noise_gate := r.2 })

/-- One genre profile of the static GENRE_CHAINS table: the ordered effect
list, the output gain, and the parameter-push-then-reset sequence that
set_genre runs over the params entries in their written order
(effect_chain.py 130-141). set_params is used where the unit has it, the
preset call for EQ, and reset is called where the unit has it (Distortion
has no reset method in the source). -/
structure GenreProfile where
  effects : List EffectId
  output_gain : ℝ
  configure : Pool → Pool

/-- Params application for the Rock/Country profile. -/
def rockConfigure (p : Pool) : Pool :=
  let p1 := { p with distortion := p.distortion.set_params (some 11.5) (some 1.0) (some "tanh") }
  let p2 := { p1 with eq := (p1.eq.set_preset "metal").reset }
  { p2 with reverb := (p2.reverb.set_params (some 0.1) (some 0.2) (some 0.10)).reset }

/-- Params application for the Jazz/Blues profile. -/
def jazzConfigure (p : Pool) : Pool :=
  let p1 := { p with chorus := (p.chorus.set_params (some 1.2) (some 0.003) (some 0.4)).reset }
  let p2 := { p1 with compressor :=
    (p1.compressor.set_params (some (-18.0)) (some 3.0) (some 1.2)).reset }
  let p3 := { p2 with eq := (p2.eq.set_preset "warm").reset }
  { p3 with reverb := (p3.reverb.set_params (some 0.4) (some 0.4) (some 0.25)).reset }

/-- Params application for the Pop profile. -/
def popConfigure (p : Pool) : Pool :=
  let p1 := { p with delay := (p.delay.set_params (some 0.25) (some 0.3) (some 0.25)).reset }
  let p2 := { p1 with eq := (p1.eq.set_preset "bright").reset }
  { p2 with reverb := (p2.reverb.set_params (some 0.3) (some 0.4) (some 0.25)).reset }

/-- Params application for the Metal profile. -/
def metalConfigure (p : Pool) : Pool :=
  let p1 := { p with noise_gate :=
    (p.noise_gate.set_params (some (-45.0)) (some 0.001) (some 0.08)).reset }
  let p2 := { p1 with eq_pre := (p1.eq_pre.set_preset "metal_pre").reset }
  let p3 := { p2 with distortion := p2.distortion.set_params (some 50.0) (some 1.0) (some "asymmetric") }
  let p4 := { p3 with eq_post := (p3.eq_post.set_preset "metal_post").reset }
  let p5 := { p4 with delay := (p4.delay.set_params (some 0.33) (some 0.4) (some 0.3)).reset }
  { p5 with compressor := (p5.compressor.set_params (some (-15.0)) (some 2.0) (some 1.3)).reset }

def rockProfile : GenreProfile :=
  { effects := [.distortion, .eq, .reverb], output_gain := 0.1, configure := rockConfigure }

def jazzProfile : GenreProfile :=
  { effects := [.chorus, .compressor, .eq, .reverb], output_gain := 1.05,
    configure := jazzConfigure }

def popProfile : GenreProfile :=
  { effects := [.delay, .eq, .reverb], output_gain := 1.1, configure := popConfigure }

def bypassProfile : GenreProfile :=
  { effects := [], output_gain := 1.1, configure := fun p => p }

def metalProfile : GenreProfile :=
  { effects := [.noise_gate, .eq_pre, .distortion, .eq_post, .delay, .compressor],
    output_gain := 0.1, configure := metalConfigure }

/-- The static genre table GENRE_CHAINS (effect_chain.py 15-74), as the
membership-tested lookup the source performs on a dict. -/
def GENRE_CHAINS (g : String) : Option GenreProfile :=
  if g = "Rock/Country" then some rockProfile
  else if g = "Jazz/Blues" then some jazzProfile
  else if g = "Pop" then some popProfile
  else if g = "Clean" then some bypassProfile
  else if g = "Metal" then some metalProfile
  else none

/-- Chain state: sample rate, current genre name, active ordered effect
list, stored output gain, and the effect pool. -/
structure EffectChain where
  sr : ℕ
  current_genre : String
  active_effects : List EffectId
  output_gain : ℝ
  pool : Pool

/-- The warning the source prints for an unknown genre name. -/
def warnUnknown (genre : String) : String :=
  "Warning: Unknown genre " ++ genre ++ ", using Pop"

/-- The message the source prints after a genuine switch. -/
def switchedMsg (genre : String) : String := "Switched to " ++ genre

/-- The tail of set_genre after the unknown-name fallback (effect_chain.py
117-146): same-name early return, otherwise table lookup (a missing key
would raise, modelled as the error case), then replace the active list and
output gain and run the parameter pushes and resets. The returned string
list collects what the call prints. -/
def set_genreCore (st : EffectChain) (genre : String) (log : List String) :
    Except String (EffectChain × List String) :=
  if genre = st.current_genre then .ok (st, log)
  else
    match GENRE_CHAINS genre with
    | none => .error "KeyError"
    | some cfg =>
      .ok ({ st with current_genre := genre, active_effects := cfg.effects,
                     output_gain := cfg.output_gain, pool := cfg.configure st.pool },
           log ++ [switchedMsg genre])

/-- EffectChain.set_genre (effect_chain.py 106-146): an unrecognized name
is replaced by Pop with a printed warning before the same-name check. -/
def set_genre (st : EffectChain) (genre : String) : Except String (EffectChain × List String) :=
  if (GENRE_CHAINS genre).isSome then set_genreCore st genre []
  else set_genreCore st "Pop" [warnUnknown genre]

/-- EffectChain.__init__ (effect_chain.py 76-104): current_genre is assigned
the initial genre, the active list starts empty with output gain 1.0, the
pool is built, and then set_genre(initial_genre) is called. -/
def EffectChain.init (sr : ℕ) (initial_genre : String) :
    Except String (EffectChain × List String) :=
  set_genre
    { sr := sr, current_genre := initial_genre, active_effects := [],
      output_gain := 1.0, pool := initPool sr }
    initial_genre

/-- EffectChain.process (effect_chain.py 148-168): copy the input block
(identity on an immutable list), fold it through the active effects in
order, then scale by the stored output gain. -/
def EffectChain.process (st : EffectChain) (audio : Block) : Block × EffectChain :=
  let r := st.active_effects.foldl (fun acc e => runEffect acc.2 e acc.1) (audio, st.pool)
  (r.1.map (fun x => x * st.output_gain), { st with pool := r.2 })

/-- The pipeline exactly as the spec words it: the block is piped through
each active effect in the declared order, each stage consuming the prior
stage output; no gain appears anywhere inside. Stated by structural
recursion to compare against the source fold. -/
def pipeSpec (p : Pool) : List EffectId → Block → Block × Pool
  | [], audio => (audio, p)
  | e :: es, audio =>
    let r := runEffect p e audio
    pipeSpec r.2 es r.1

/-- The chain loop of EffectChain.process lifted to stages that may fail
(raise): the source loop body `output = effect.process(output)` carries no
try/except, so a failure aborts the whole call. Gain is applied after the
loop as in the source. -/
def chainLoopExc (stages : List (Block → Except Unit Block)) (gain : ℝ) (audio : Block) :
    Except Unit Block :=
  (stages.foldlM (fun (out : Block) (f : Block → Except Unit Block) => f out) audio).map
    (fun out => out.map (fun x => x * gain))

/-- The error policy the spec mandates instead: a failing stage is bypassed
for the current block (its input passed through unchanged) and the chain
continues; modelled from the spec wording for comparison with
chainLoopExc. -/
def chainLoopBypass (stages : List (Block → Except Unit Block)) (gain : ℝ) (audio : Block) :
    Block :=
  (stages.foldl (fun out f => ((f out).toOption).getD out) audio).map (fun x => x * gain)

/-- A stage whose process raises on every block. -/
def failingStage : Block → Except Unit Block := fun _ => .error ()

/-- The parameter values the GENRE_CHAINS table pushes for a given genre,
read back from the pool fields (with the clamps and coefficient
conversions the set_params calls perform already applied). -/
def paramsPushed (g : String) (p : Pool) : Prop :=
  if g = "Rock/Country" then
    p.distortion.gain = 11.5 ∧ p.distortion.mix = 1.0 ∧ p.distortion.type = "tanh" ∧
    p.eq.bands = metalBands ∧
    p.reverb.room_size = 0.1 ∧ p.reverb.damping = 0.2 ∧ p.reverb.mix = 0.10
  else if g = "Jazz/Blues" then
    p.chorus.rate = 1.2 ∧ p.chorus.depth = 0.003 ∧ p.chorus.mix = 0.4 ∧
    p.compressor.threshold = -18.0 ∧ p.compressor.ratio = 3.0 ∧
    p.compressor.makeup_gain = 1.2 ∧
    p.eq.bands = warmBands ∧
    p.reverb.room_size = 0.4 ∧ p.reverb.damping = 0.4 ∧ p.reverb.mix = 0.25
  else if g = "Pop" then
    p.delay.delay_time = 0.25 ∧ p.delay.feedback = 0.3 ∧ p.delay.mix = 0.25 ∧
    p.eq.bands = brightBands ∧
    p.reverb.room_size = 0.3 ∧ p.reverb.damping = 0.4 ∧ p.reverb.mix = 0.25
  else if g = "Clean" then True
  else if g = "Metal" then
    p.noise_gate.threshold = -45.0 ∧
    p.noise_gate.attack_coeff = Real.exp (-1 / (0.001 * p.noise_gate.sr)) ∧
    p.noise_gate.release_coeff = Real.exp (-1 / (0.08 * p.noise_gate.sr)) ∧
    p.eq_pre.bands = metalPreBands ∧
    p.distortion.gain = 50.0 ∧ p.distortion.mix = 1.0 ∧ p.distortion.type = "asymmetric" ∧
    p.eq_post.bands = metalPostBands ∧
    p.delay.delay_time = 0.33 ∧ p.delay.feedback = 0.4 ∧ p.delay.mix = 0.3 ∧
    p.compressor.threshold = -15.0 ∧ p.compressor.ratio = 2.0 ∧
    p.compressor.makeup_gain = 1.3
  else True

/-- The named effect holds its initial internal memory, stated as being a
fixed point of its own reset: reset zeroes exactly the buffers, cursors
and envelope scalars, so a state is fixed by reset precisely when that
memory is at the initial (zeroed) values. Distortion is stateless and has
no reset method in the source, so the condition is trivial for it. -/
def resetApplied (p : Pool) : EffectId → Prop
  | .distortion => True
  | .chorus => p.chorus.reset = p.chorus
  | .compressor => p.compressor.reset = p.compressor
  | .eq => p.eq.reset = p.eq
  | .eq_pre => p.eq_pre.reset = p.eq_pre
  | .eq_post => p.eq_post.reset = p.eq_post
  | .delay => p.delay.reset = p.delay
  | .reverb => p.reverb.reset = p.reverb
  | .noise_gate => p.noise_gate.reset = p.noise_gate

/-- The chain state right after EffectChain.__init__ with the default
initial genre Pop: empty active list, output gain 1.0, pristine pool. -/
def basePopChain : EffectChain :=
  { sr := 44100, current_genre := "Pop", active_effects := [], output_gain := 1.0,
    pool := initPool 44100 }

/-- The chain state right after EffectChain.__init__ with initial genre
Metal: same pristine shape, current genre Metal. -/
def baseMetalChain : EffectChain :=
  { sr := 44100, current_genre := "Metal", active_effects := [], output_gain := 1.0,
    pool := initPool 44100 }

/-! ## Helper lemmas -/

theorem runSamples_length {σ : Type} (f : σ → ℝ → ℝ × σ) (s : σ) (xs : Block) :
    (runSamples f s xs).1.length = xs.length := by
  induction xs generalizing s with
  | nil => rfl
  | cons x xs ih => simp [runSamples, ih]

theorem eqRun_length (sr : ℕ) (bands : List EqBand) (zs : List (ℝ × ℝ)) (audio : Block) :
    (eqRun sr bands zs audio).1.length = audio.length := by
  induction bands generalizing zs audio with
  | nil => rfl
  | cons b bs ih => simp [eqRun, ih, runSamples_length]

theorem runEffect_length (p : Pool) (e : EffectId) (audio : Block) :
    (runEffect p e audio).1.length = audio.length := by
  cases e <;>
    simp [runEffect, Distortion.process, Chorus.process, Compressor.process, EQ.process,
      Delay.process, Reverb.process, NoiseGate.process, runSamples_length, eqRun_length]

theorem foldl_eq_pipeSpec (es : List EffectId) (p : Pool) (audio : Block) :
    es.foldl (fun acc e => runEffect acc.2 e acc.1) (audio, p) = pipeSpec p es audio := by
  induction es generalizing p audio with
  | nil => rfl
  | cons e es ih => simp [pipeSpec, List.foldl_cons, ih]

theorem pipeSpec_length (es : List EffectId) (p : Pool) (audio : Block) :
    (pipeSpec p es audio).1.length = audio.length := by
  induction es generalizing p audio with
  | nil => rfl
  | cons e es ih => simp [pipeSpec, ih, runEffect_length]

theorem genre_lookup_rock : GENRE_CHAINS "Rock/Country" = some rockProfile := rfl

theorem genre_lookup_jazz : GENRE_CHAINS "Jazz/Blues" = some jazzProfile := rfl

theorem genre_lookup_pop : GENRE_CHAINS "Pop" = some popProfile := rfl

theorem genre_lookup_bypass : GENRE_CHAINS "Clean" = some bypassProfile := rfl

theorem genre_lookup_metal : GENRE_CHAINS "Metal" = some metalProfile := rfl

/-! ## Claims -/

/-- C1: EffectChain.process equals the input block piped left-to-right
through each active effect in the declared profile order (each stage
consuming the prior stage output), with the stored output gain multiplied
in exactly once after the last effect: pipeSpec is the gain-free pipeline,
and the gain appears only in the single final map. The pool in the
returned state is the pipeline final pool; nothing else changes. -/
theorem claim_C1 (st : EffectChain) (audio : Block) :
    (st.process audio).1 =
      (pipeSpec st.pool st.active_effects audio).1.map (fun x => x * st.output_gain) ∧
    (st.process audio).2 = { st with pool := (pipeSpec st.pool st.active_effects audio).2 } := by
  unfold EffectChain.process
  rw [foldl_eq_pipeSpec]
  exact ⟨rfl, rfl⟩

/-- C2: the source loop of EffectChain.process has no try/except, so a
stage whose process raises aborts the whole call instead of being
bypassed: on a one-stage chain whose unit raises, the source loop
(chainLoopExc) propagates the error, while the policy mandated by the
spec (chainLoopBypass) would pass the block through and finish. -/
theorem claim_C2 :
    chainLoopExc [failingStage] 1.0 [0.5] = .error () ∧
    chainLoopBypass [failingStage] 1.0 [0.5] = [0.5] := by
  constructor
  · rfl
  · simp [chainLoopBypass, failingStage, Except.toOption]
    norm_num

/-- C8: every effect unit returns a block of the same length as its input,
in any internal state, and so does EffectChain.process. -/
theorem claim_C8 :
    (∀ (d : Distortion) (a : Block), (d.process a).length = a.length) ∧
    (∀ (c : Chorus) (a : Block), (c.process a).1.length = a.length) ∧
    (∀ (c : Compressor) (a : Block), (c.process a).1.length = a.length) ∧
    (∀ (e : EQ) (a : Block), (e.process a).1.length = a.length) ∧
    (∀ (d : Delay) (a : Block), (d.process a).1.length = a.length) ∧
    (∀ (rv : Reverb) (a : Block), (rv.process a).1.length = a.length) ∧
    (∀ (g : NoiseGate) (a : Block), (g.process a).1.length = a.length) ∧
    (∀ (st : EffectChain) (a : Block), ((st.process a).1).length = a.length) := by
  refine ⟨?_, ?_, ?_, ?_, ?_, ?_, ?_, ?_⟩
  · intro d a; simp [Distortion.process]
  · intro c a; simp [Chorus.process, runSamples_length]
  · intro c a; simp [Compressor.process, runSamples_length]
  · intro e a; simp [EQ.process, eqRun_length]
  · intro d a; simp [Delay.process, runSamples_length]
  · intro rv a; simp [Reverb.process, runSamples_length]
  · intro g a; simp [NoiseGate.process, runSamples_length]
  · intro st a
    unfold EffectChain.process
    rw [foldl_eq_pipeSpec]
    simp [pipeSpec_length]

/-- C3 counterexample: the claim that every parameter-setting call clamps
out-of-range values is false at a concrete input: Reverb.set_params with
room_size = 2 stores 2 verbatim, outside the documented valid range
[0, 1] (reverb.py docstring). -/
theorem claim_C3_counterexample :
    (Reverb.set_params (Reverb.init 44100) (some 2) none none).room_size = 2 ∧
    ¬ ((2 : ℝ) ≤ 1) := by
  constructor
  · rfl
  · norm_num

/-- C3 amended: the only clamp in any parameter-setting call is
Delay.set_params clamping feedback into [0, 0.95] (the spec feedback
example); every other parameter of every unit is accepted unvalidated:
Delay stores delay_time and mix verbatim, and Distortion, Chorus,
Compressor and Reverb store all their parameters verbatim (so
out-of-range values are stored out of range, see the counterexample);
NoiseGate stores threshold verbatim and converts attack and release times
to coefficients exp(-1/(t*sr)) with no clamping or rejection (a
non-positive time yields a coefficient outside (0,1), stored as is); EQ
configuration accepts only fixed preset names, whose band tables are
installed exactly as written, so no caller-supplied numeric value (such
as a negative Q) can ever reach it. -/
theorem claim_C3 :
    (∀ (d : Delay) (fb : ℝ),
        0 ≤ (d.set_params none (some fb) none).feedback ∧
        (d.set_params none (some fb) none).feedback ≤ 0.95) ∧
    (∀ (d : Delay) (t m : ℝ),
        (d.set_params (some t) none (some m)).delay_time = t ∧
        (d.set_params (some t) none (some m)).mix = m) ∧
    (∀ (dt : Distortion) (g m : ℝ) (ty : String),
        (dt.set_params (some g) (some m) (some ty)).gain = g ∧
        (dt.set_params (some g) (some m) (some ty)).mix = m ∧
        (dt.set_params (some g) (some m) (some ty)).type = ty) ∧
    (∀ (c : Chorus) (r dp m : ℝ),
        (c.set_params (some r) (some dp) (some m)).rate = r ∧
        (c.set_params (some r) (some dp) (some m)).depth = dp ∧
        (c.set_params (some r) (some dp) (some m)).mix = m) ∧
    (∀ (cp : Compressor) (t r mg : ℝ),
        (cp.set_params (some t) (some r) (some mg)).threshold = t ∧
        (cp.set_params (some t) (some r) (some mg)).ratio = r ∧
        (cp.set_params (some t) (some r) (some mg)).makeup_gain = mg) ∧
    (∀ (rv : Reverb) (rs dp m : ℝ),
        (rv.set_params (some rs) (some dp) (some m)).room_size = rs ∧
        (rv.set_params (some rs) (some dp) (some m)).damping = dp ∧
        (rv.set_params (some rs) (some dp) (some m)).mix = m) ∧
    (∀ (ng : NoiseGate) (t a r : ℝ),
        (ng.set_params (some t) (some a) (some r)).threshold = t ∧
        (ng.set_params (some t) (some a) (some r)).attack_coeff =
          Real.exp (-1 / (a * ng.sr)) ∧
        (ng.set_params (some t) (some a) (some r)).release_coeff =
          Real.exp (-1 / (r * ng.sr))) ∧
    (∀ e : EQ, (e.set_preset "metal").bands = metalBands ∧
        (e.set_preset "metal_pre").bands = metalPreBands ∧
        (e.set_preset "metal_post").bands = metalPostBands ∧
        (e.set_preset "bright").bands = brightBands ∧
        (e.set_preset "warm").bands = warmBands ∧
        (e.set_preset "flat").bands = []) := by
  refine ⟨?_, ?_, ?_, ?_, ?_, ?_, ?_, ?_⟩
  · intro d fb
    constructor
    · show (0 : ℝ) ≤ clipR fb 0 0.95
      unfold clipR
      have h1 : (0 : ℝ) ≤ max fb 0 := le_max_right fb 0
      have h2 : (0 : ℝ) ≤ 0.95 := by norm_num
      exact le_min h1 h2
    · exact min_le_right _ _
  · intro d t m; exact ⟨rfl, rfl⟩
  · intro dt g m ty; exact ⟨rfl, rfl, rfl⟩
  · intro c r dp m; exact ⟨rfl, rfl, rfl⟩
  · intro cp t r mg; exact ⟨rfl, rfl, rfl⟩
  · intro rv rs dp m; exact ⟨rfl, rfl, rfl⟩
  · intro ng t a r; exact ⟨rfl, rfl, rfl⟩
  · intro e; exact ⟨rfl, rfl, rfl, rfl, rfl, rfl⟩

/-- C4 counterexample: Distortion with mix = 0 does not return the input
unchanged: the fixed 0.9 output attenuation is applied after the wet/dry
mix, so the dry path comes out scaled by 0.9. At gain 5, type tanh, input
block [1], the output is [0.9], not [1]. -/
theorem claim_C4_counterexample :
    Distortion.process { gain := 5.0, mix := 0, type := "tanh" } [1] ≠ ([1] : Block) := by
  unfold Distortion.process
  simp
  norm_num

/-- C4 amended: for every gain and mode and every input block, Distortion
with mix = 0 returns the input scaled by the fixed 0.9 output attenuation
(a pure dry path up to that one constant factor). -/
theorem claim_C4 (gain : ℝ) (type : String) (audio : Block) :
    Distortion.process { gain := gain, mix := 0, type := type } audio =
      audio.map (fun x => x * 0.9) := by
  unfold Distortion.process
  simp
  intro a _
  left
  ring

/-- C6: if set_genre is called with a name equal to the current genre (the
current genre being a recognized profile, which holds in every state the
constructor or set_genre can produce, see set_genre_current_known), the
call is a complete no-op: the returned state is the given state — no
parameter pushes, no resets, no active-list or output-gain change — and
nothing is printed. -/
theorem claim_C6 (st : EffectChain) (h : (GENRE_CHAINS st.current_genre).isSome) :
    set_genre st st.current_genre = .ok (st, []) := by
  unfold set_genre
  rw [if_pos h]
  unfold set_genreCore
  rw [if_pos rfl]

/-- C6 witness at the freshly constructed default chain. -/
theorem claim_C6_witness :
    (GENRE_CHAINS basePopChain.current_genre).isSome = true ∧
    set_genre basePopChain basePopChain.current_genre = .ok (basePopChain, []) :=
  ⟨rfl, claim_C6 basePopChain rfl⟩

/-- Every successful set_genre call leaves a recognized current genre, so
recognized current genre is an invariant of all reachable chain states. -/
theorem set_genre_current_known (st : EffectChain) (g : String) (st' : EffectChain)
    (log : List String) (h : set_genre st g = .ok (st', log)) :
    (GENRE_CHAINS st'.current_genre).isSome := by
  unfold set_genre at h
  by_cases hk : (GENRE_CHAINS g).isSome
  · rw [if_pos hk] at h
    unfold set_genreCore at h
    by_cases he : g = st.current_genre
    · rw [if_pos he] at h
      obtain ⟨rfl, -⟩ := by exact Prod.mk.injEq .. ▸ (Except.ok.inj h)
      rw [← he]
      exact hk
    · rw [if_neg he] at h
      cases hg : GENRE_CHAINS g with
      | none => rw [hg] at h; exact absurd h (by simp)
      | some cfg =>
        rw [hg] at h
        obtain ⟨rfl, -⟩ := by exact Prod.mk.injEq .. ▸ (Except.ok.inj h)
        exact hk
  · rw [if_neg hk] at h
    unfold set_genreCore at h
    by_cases he : "Pop" = st.current_genre
    · rw [if_pos he] at h
      obtain ⟨rfl, -⟩ := by exact Prod.mk.injEq .. ▸ (Except.ok.inj h)
      rw [← he]
      rfl
    · rw [if_neg he, genre_lookup_pop] at h
      obtain ⟨rfl, -⟩ := by exact Prod.mk.injEq .. ▸ (Except.ok.inj h)
      rfl

/-- C7: for every name outside the genre table, set_genre never fails: it
returns normally (never the error a raw dict lookup would raise), the
unknown-genre warning is among what it prints, and the chain ends in the
Pop state of the genre state machine; when the chain was not already in
Pop, the full Pop profile (active list, output gain, parameter pushes and
resets) is applied. -/
theorem claim_C7 (st : EffectChain) (g : String) (h : GENRE_CHAINS g = none) :
    ∃ st' log, set_genre st g = .ok (st', log) ∧
      st'.current_genre = "Pop" ∧
      warnUnknown g ∈ log ∧
      (st.current_genre ≠ "Pop" →
        st'.active_effects = popProfile.effects ∧
        st'.output_gain = popProfile.output_gain ∧
        st'.pool = popConfigure st.pool) := by
  unfold set_genre
  rw [h]
  simp only [Option.isSome_none, Bool.false_eq_true, if_false]
  unfold set_genreCore
  by_cases hp : "Pop" = st.current_genre
  · rw [if_pos hp]
    exact ⟨st, [warnUnknown g], rfl, hp.symm, by simp, fun hne => absurd hp.symm hne⟩
  · rw [if_neg hp, genre_lookup_pop]
    refine ⟨_, _, rfl, rfl, by simp, fun _ => ⟨rfl, rfl, rfl⟩⟩

/-- C7 witness: an unknown genre on a chain currently in Metal. -/
theorem claim_C7_witness :
    GENRE_CHAINS "UnknownGenre" = none ∧
    (∃ st' log, set_genre baseMetalChain "UnknownGenre" = .ok (st', log) ∧
      st'.current_genre = "Pop" ∧
      warnUnknown "UnknownGenre" ∈ log ∧
      (baseMetalChain.current_genre ≠ "Pop" →
        st'.active_effects = popProfile.effects ∧
        st'.output_gain = popProfile.output_gain ∧
        st'.pool = popConfigure baseMetalChain.pool)) :=
  ⟨rfl, claim_C7 baseMetalChain "UnknownGenre" rfl⟩

/-- C9 counterexample: the freshly constructed chain does NOT have an empty
active list and gain 1.0 for every initial_genre: with the unrecognized
name Foo the constructor falls back to Pop and, since Pop differs from the
stored current genre Foo, fully applies the Pop profile — active effects
delay, eq, reverb and output gain 1.1. -/
theorem claim_C9_counterexample :
    (EffectChain.init 44100 "Foo").toOption.map
        (fun r => (r.1.active_effects, r.1.output_gain)) =
      some ([EffectId.delay, EffectId.eq, EffectId.reverb], (1.1 : ℝ)) := by
  unfold EffectChain.init set_genre
  have h : GENRE_CHAINS "Foo" = none := rfl
  rw [h]
  simp only [Option.isSome_none, Bool.false_eq_true, if_false]
  unfold set_genreCore
  rw [if_neg (by decide), genre_lookup_pop]
  rfl

/-- C9 amended: for every recognized initial_genre, the internal
set_genre(initial_genre) of the constructor returns at the same-name check
(current_genre was assigned first), so the fresh chain has an empty active
list, output gain 1.0 and a pristine pool, the initial profile is never
applied, and process returns the input unchanged. (For an unrecognized
initial_genre the constructor instead falls back and fully applies Pop.) -/
theorem claim_C9 (sr : ℕ) (g : String) (h : (GENRE_CHAINS g).isSome) :
    EffectChain.init sr g =
      .ok ({ sr := sr, current_genre := g, active_effects := [], output_gain := 1.0,
             pool := initPool sr }, []) ∧
    ∀ audio : Block,
      (EffectChain.process
        { sr := sr, current_genre := g, active_effects := [], output_gain := 1.0,
          pool := initPool sr } audio).1 = audio := by
  constructor
  · unfold EffectChain.init set_genre
    rw [if_pos h]
    unfold set_genreCore
    rw [if_pos rfl]
  · intro audio
    unfold EffectChain.process
    simp only [List.foldl_nil]
    have h1 : (fun x : ℝ => x * 1.0) = fun x : ℝ => x := by
      funext x
      norm_num
    rw [h1, List.map_id']

/-- C9 witness at initial genre Metal. -/
theorem claim_C9_witness :
    (GENRE_CHAINS "Metal").isSome = true ∧
    (EffectChain.init 44100 "Metal" =
      .ok ({ sr := 44100, current_genre := "Metal", active_effects := [], output_gain := 1.0,
             pool := initPool 44100 }, []) ∧
     ∀ audio : Block,
      (EffectChain.process
        { sr := 44100, current_genre := "Metal", active_effects := [], output_gain := 1.0,
          pool := initPool 44100 } audio).1 = audio) :=
  ⟨rfl, claim_C9 44100 "Metal" rfl⟩

theorem chorus_reset_idem (c : Chorus) : c.reset.reset = c.reset := by
  simp [Chorus.reset, List.map_map, Function.comp]

theorem compressor_reset_idem (c : Compressor) : c.reset.reset = c.reset := rfl

theorem eq_reset_idem (e : EQ) : e.reset.reset = e.reset := rfl

theorem delay_reset_idem (d : Delay) : d.reset.reset = d.reset := by
  simp [Delay.reset, List.map_map, Function.comp]

theorem reverb_reset_idem (rv : Reverb) : rv.reset.reset = rv.reset := by
  simp [Reverb.reset, List.map_map, Function.comp]

theorem gate_reset_idem (g : NoiseGate) : g.reset.reset = g.reset := rfl

theorem clipR_of_mem (x : ℝ) (h0 : 0 ≤ x) (h1 : x ≤ 0.95) : clipR x 0 0.95 = x := by
  unfold clipR
  rw [max_eq_left h0, min_eq_left h1]

theorem rock_configured (p : Pool) :
    paramsPushed "Rock/Country" (rockConfigure p) ∧
    ∀ e ∈ rockProfile.effects, resetApplied (rockConfigure p) e := by
  constructor
  · unfold paramsPushed
    rw [if_pos rfl]
    refine ⟨rfl, rfl, rfl, rfl, rfl, rfl, rfl⟩
  · intro e he
    fin_cases he
    · trivial
    · exact eq_reset_idem _
    · exact reverb_reset_idem _

theorem jazz_configured (p : Pool) :
    paramsPushed "Jazz/Blues" (jazzConfigure p) ∧
    ∀ e ∈ jazzProfile.effects, resetApplied (jazzConfigure p) e := by
  constructor
  · unfold paramsPushed
    rw [if_neg (by decide), if_pos rfl]
    refine ⟨rfl, rfl, rfl, rfl, rfl, rfl, rfl, rfl, rfl, rfl⟩
  · intro e he
    fin_cases he
    · exact chorus_reset_idem _
    · exact compressor_reset_idem _
    · exact eq_reset_idem _
    · exact reverb_reset_idem _

theorem pop_configured (p : Pool) :
    paramsPushed "Pop" (popConfigure p) ∧
    ∀ e ∈ popProfile.effects, resetApplied (popConfigure p) e := by
  constructor
  · unfold paramsPushed
    rw [if_neg (by decide), if_neg (by decide), if_pos rfl]
    refine ⟨rfl, ?_, rfl, rfl, rfl, rfl, rfl⟩
    show clipR 0.3 0 0.95 = 0.3
    exact clipR_of_mem _ (by norm_num) (by norm_num)
  · intro e he
    fin_cases he
    · exact delay_reset_idem _
    · exact eq_reset_idem _
    · exact reverb_reset_idem _

theorem bypass_configured (p : Pool) :
    paramsPushed "Clean" (bypassProfile.configure p) ∧
    ∀ e ∈ bypassProfile.effects, resetApplied (bypassProfile.configure p) e := by
  constructor
  · unfold paramsPushed
    rw [if_neg (by decide), if_neg (by decide), if_neg (by decide), if_pos rfl]
    trivial
  · intro e he
    simp [bypassProfile] at he

theorem metal_configured (p : Pool) :
    paramsPushed "Metal" (metalConfigure p) ∧
    ∀ e ∈ metalProfile.effects, resetApplied (metalConfigure p) e := by
  constructor
  · unfold paramsPushed
    rw [if_neg (by decide), if_neg (by decide), if_neg (by decide), if_neg (by decide),
        if_pos rfl]
    refine ⟨rfl, rfl, rfl, rfl, rfl, rfl, rfl, rfl, rfl, ?_, rfl, rfl, rfl, rfl⟩
    show clipR 0.4 0 0.95 = 0.4
    exact clipR_of_mem _ (by norm_num) (by norm_num)
  · intro e he
    fin_cases he
    · exact gate_reset_idem _
    · exact eq_reset_idem _
    · trivial
    · exact eq_reset_idem _
    · exact delay_reset_idem _
    · exact compressor_reset_idem _

/-- C5: on every genuine transition to a recognized profile, set_genre
replaces the active list and output gain with the profile values, and
every effect referenced by the new profile has the profile parameter set
pushed into it (via set_params, or the named preset for EQ) and its
internal memory at the initial state afterwards (stated as the state
being a fixed point of its own reset) — for every prior pool state, so
including effects that were also active in the previous profile. -/
theorem claim_C5 (st : EffectChain) (g : String) (cfg : GenreProfile)
    (hg : GENRE_CHAINS g = some cfg) (hne : g ≠ st.current_genre) :
    ∃ st' log, set_genre st g = .ok (st', log) ∧
      st'.active_effects = cfg.effects ∧ st'.output_gain = cfg.output_gain ∧
      st'.pool = cfg.configure st.pool ∧
      paramsPushed g st'.pool ∧ ∀ e ∈ cfg.effects, resetApplied st'.pool e := by
  have hok : set_genre st g =
      .ok ({ st with current_genre := g, active_effects := cfg.effects,
                     output_gain := cfg.output_gain, pool := cfg.configure st.pool },
           [switchedMsg g]) := by
    unfold set_genre
    rw [if_pos (by simp [hg])]
    unfold set_genreCore
    rw [if_neg hne, hg]
    rfl
  have hcase : paramsPushed g (cfg.configure st.pool) ∧
      ∀ e ∈ cfg.effects, resetApplied (cfg.configure st.pool) e := by
    unfold GENRE_CHAINS at hg
    split_ifs at hg with h1 h2 h3 h4 h5
    · cases Option.some.inj hg; subst h1; exact rock_configured st.pool
    · cases Option.some.inj hg; subst h2; exact jazz_configured st.pool
    · cases Option.some.inj hg; subst h3; exact pop_configured st.pool
    · cases Option.some.inj hg; subst h4; exact bypass_configured st.pool
    · cases Option.some.inj hg; subst h5; exact metal_configured st.pool
  exact ⟨_, _, hok, rfl, rfl, rfl, hcase.1, hcase.2⟩

/-- C5 witness: switching the freshly constructed Pop chain to Jazz/Blues. -/
theorem claim_C5_witness :
    GENRE_CHAINS "Jazz/Blues" = some jazzProfile ∧
    "Jazz/Blues" ≠ basePopChain.current_genre ∧
    (∃ st' log, set_genre basePopChain "Jazz/Blues" = .ok (st', log) ∧
      st'.active_effects = jazzProfile.effects ∧
      st'.output_gain = jazzProfile.output_gain ∧
      st'.pool = jazzProfile.configure basePopChain.pool ∧
      paramsPushed "Jazz/Blues" st'.pool ∧
      ∀ e ∈ jazzProfile.effects, resetApplied st'.pool e) :=
  ⟨rfl, by decide, claim_C5 basePopChain "Jazz/Blues" jazzProfile rfl (by decide)⟩

theorem smooth_mem (c t x0 : ℝ) (hc0 : 0 < c) (hc1 : c < 1) (h0 : 0 ≤ x0) (h1 : x0 ≤ 1)
    (ht0 : 0 ≤ t) (ht1 : t ≤ 1) :
    0 ≤ c * x0 + (1 - c) * t ∧ c * x0 + (1 - c) * t ≤ 1 := by
  constructor <;> nlinarith

theorem abs_mul_le_of_mem (x b : ℝ) (h0 : 0 ≤ b) (h1 : b ≤ 1) : |x * b| ≤ |x| := by
  rw [abs_mul, abs_of_nonneg h0]
  calc |x| * b ≤ |x| * 1 := mul_le_mul_of_nonneg_left h1 (abs_nonneg x)
    _ = |x| := mul_one _

theorem gate_step_bounds (g : NoiseGate) (x : ℝ)
    (ha0 : 0 < g.attack_coeff) (ha1 : g.attack_coeff < 1)
    (hr0 : 0 < g.release_coeff) (hr1 : g.release_coeff < 1)
    (h0 : 0 ≤ g.gate_gain) (h1 : g.gate_gain ≤ 1) :
    (0 ≤ (g.step x).2.gate_gain ∧ (g.step x).2.gate_gain ≤ 1) ∧
    |(g.step x).1| ≤ |x| ∧
    (g.step x).2.attack_coeff = g.attack_coeff ∧
    (g.step x).2.release_coeff = g.release_coeff := by
  unfold NoiseGate.step
  dsimp only
  split_ifs <;>
    exact ⟨⟨by nlinarith, by nlinarith⟩,
           abs_mul_le_of_mem x _ (by nlinarith) (by nlinarith), rfl, rfl⟩

/-- C10: with both smoothing coefficients in (0, 1) (which is what positive
attack and release times yield, see claim_C10_witness where the
coefficients of NoiseGate.init are bounded this way) and the smoothed gate
gain in [0, 1] — as it is from the reset state 0 — a process call leaves
the gate gain in [0, 1] and every output sample satisfies
|output| ≤ |input|; the bound is stated as an invariant, so it holds
across every process call. -/
theorem claim_C10 (g : NoiseGate)
    (ha0 : 0 < g.attack_coeff) (ha1 : g.attack_coeff < 1)
    (hr0 : 0 < g.release_coeff) (hr1 : g.release_coeff < 1)
    (h0 : 0 ≤ g.gate_gain) (h1 : g.gate_gain ≤ 1) (audio : Block) :
    (0 ≤ (g.process audio).2.gate_gain ∧ (g.process audio).2.gate_gain ≤ 1) ∧
    List.Forall₂ (fun y x => |y| ≤ |x|) (g.process audio).1 audio := by
  unfold NoiseGate.process
  induction audio generalizing g with
  | nil => exact ⟨⟨h0, h1⟩, List.Forall₂.nil⟩
  | cons x xs ih =>
    have hs := gate_step_bounds g x ha0 ha1 hr0 hr1 h0 h1
    have hih := ih (g.step x).2 (hs.2.2.1 ▸ ha0) (hs.2.2.1 ▸ ha1)
      (hs.2.2.2 ▸ hr0) (hs.2.2.2 ▸ hr1) hs.1.1 hs.1.2
    refine ⟨?_, ?_⟩
    · show 0 ≤ (runSamples NoiseGate.step ((g.step x).2) xs).2.gate_gain ∧ _
      exact hih.1
    · show List.Forall₂ _ ((g.step x).1 :: (runSamples NoiseGate.step ((g.step x).2) xs).1)
        (x :: xs)
      exact List.Forall₂.cons hs.2.1 hih.2

/-- C10 witness: a gate built with positive attack and release times of one
second at sample rate 1 has both coefficients exp(-1) in (0, 1), its reset
gate gain 0 is in [0, 1], and the bound holds on the block [1]. -/
theorem claim_C10_witness :
    (0 < (NoiseGate.set_params (NoiseGate.init 1) none (some 1) (some 1)).attack_coeff ∧
     (NoiseGate.set_params (NoiseGate.init 1) none (some 1) (some 1)).attack_coeff < 1 ∧
     0 < (NoiseGate.set_params (NoiseGate.init 1) none (some 1) (some 1)).release_coeff ∧
     (NoiseGate.set_params (NoiseGate.init 1) none (some 1) (some 1)).release_coeff < 1 ∧
     0 ≤ (NoiseGate.set_params (NoiseGate.init 1) none (some 1) (some 1)).gate_gain ∧
     (NoiseGate.set_params (NoiseGate.init 1) none (some 1) (some 1)).gate_gain ≤ 1) ∧
    ((0 ≤ ((NoiseGate.set_params (NoiseGate.init 1) none (some 1) (some 1)).process
        [1]).2.gate_gain ∧
      ((NoiseGate.set_params (NoiseGate.init 1) none (some 1) (some 1)).process
        [1]).2.gate_gain ≤ 1) ∧
     List.Forall₂ (fun y x => |y| ≤ |x|)
       ((NoiseGate.set_params (NoiseGate.init 1) none (some 1) (some 1)).process [1]).1 [1]) := by
  have hc : ∀ r : ℝ, r = Real.exp (-1 / (1 * ((1 : ℕ) : ℝ))) → 0 < r ∧ r < 1 := by
    intro r hr
    subst hr
    constructor
    · exact Real.exp_pos _
    · rw [Real.exp_lt_one_iff]
      norm_num
  have ha := hc _ rfl
  refine ⟨⟨ha.1, ha.2, ha.1, ha.2, le_refl 0, zero_le_one⟩, ?_⟩
  exact claim_C10 _ ha.1 ha.2 ha.1 ha.2 (le_refl 0) zero_le_one [1]

end GuitarFx
